import Mathlib

/-!
Verification of the sweetpay request/response pipeline.

This file is a shallow embedding of the generic request/response pipeline of
the sweetpay SDK: the JSON request encoder (`SweetpayJSONEncoder` in
`sweetpay/base.py`), the response envelope (`ResponseClass`), application
status extraction (`BaseResource.post_request`), the error mapper
(`BaseResource.check_for_errors`), the validator registry
(`BaseResource.validates` / `BaseResource.validate_data`), the mock scope
(`BaseResource.mock_resource`) and the connector method check
(`Connector.encode_data` in `sweetpay/connector.py`).

Python values reachable in this pipeline (parsed JSON plus the extra types
the encoder special-cases and the values validator transforms may produce)
are modelled by the inductive type `PyVal`.  Exceptions are modelled with
`Except`: the typed `SweetpayError` hierarchy becomes the `SweetpayErr`
structure whose `kind` field records the exception class; exception message
strings are presentation only and are not modelled.
-/

namespace Sweetpay

/-- A Python value as it can appear in a request-parameter dict or a decoded
response body: JSON scalars/containers, plus `datetime.datetime`,
`datetime.date` and `decimal.Decimal` (the types `SweetpayJSONEncoder`
special-cases), plus whatever a validator transform returns.  A `Decimal` is
carried as its sign, coefficient digits (most significant first) and
exponent, exactly as Python's `decimal` module stores it. -/
inductive PyVal where
  | none
  | bool (b : Bool)
  | int (n : Int)
  | str (s : String)
  | pydate (y m d : Nat)
  | pydatetime (y mo d h mi s us : Nat)
  | dec (neg : Bool) (ds : List Nat) (e : Int)
  | list (xs : List PyVal)
  | dict (kvs : List (String × PyVal))

/-- Python truthiness (`bool(x)`) for the modelled values. -/
def PyVal.truthy : PyVal → Bool
  | .none => false
  | .bool b => b
  | .int n => n != 0
  | .str s => !s.isEmpty
  | .pydate _ _ _ => true
  | .pydatetime _ _ _ _ _ _ _ => true
  | .dec _ ds _ => ds.any (fun d => d != 0)
  | .list xs => !xs.isEmpty
  | .dict kvs => !kvs.isEmpty

/-- Python dict lookup `d[key]` / `d.get(key)` on the association-list model
of a dict (keys are unique in a Python dict; lookup takes the first match). -/
def lookupKey : List (String × PyVal) → String → Option PyVal
  | [], _ => Option.none
  | (k, v) :: kvs, key => if k = key then some v else lookupKey kvs key

/-! ### The JSON encoder (`SweetpayJSONEncoder`, base.py lines 24-35) -/

/-- `"0" * n`. -/
def zeros (n : Nat) : String := String.join (List.replicate n "0")

/-- Zero-padded decimal rendering of a natural number, width `w`
(Python `"%0wd"`). -/
def pad (w n : Nat) : String :=
  let s := toString n
  zeros (w - s.length) ++ s

/-- `datetime.date.strftime("%Y-%m-%d")` (the `DATE_FORMAT` constant). -/
def date_strftime (y m d : Nat) : String :=
  pad 4 y ++ "-" ++ pad 2 m ++ "-" ++ pad 2 d

/-- `datetime.datetime.isoformat()`: `YYYY-MM-DDTHH:MM:SS` with the
microsecond part appended only when it is nonzero. -/
def datetime_isoformat (y mo d h mi s us : Nat) : String :=
  pad 4 y ++ "-" ++ pad 2 mo ++ "-" ++ pad 2 d ++ "T" ++
    pad 2 h ++ ":" ++ pad 2 mi ++ ":" ++ pad 2 s ++
    (if us = 0 then "" else "." ++ pad 6 us)

/-- The digits of a `Decimal` coefficient as a string. -/
def decDigits (ds : List Nat) : String := String.join (ds.map toString)

/-- Python's `"%+d"` formatting used for a `Decimal` exponent. -/
def expSign (n : Int) : String := if n < 0 then toString n else "+" ++ toString n

/-- `str(Decimal(...))` for a finite decimal: the to-scientific-string
algorithm of Python's `decimal` module (`Decimal.__str__`). -/
def decStr (neg : Bool) (ds : List Nat) (e : Int) : String :=
  let sign := if neg then "-" else ""
  let ndig : Int := (ds.length : Int)
  let leftdigits : Int := e + ndig
  let dotplace : Int := if e ≤ 0 ∧ -6 < leftdigits then leftdigits else 1
  let intpart : String :=
    if dotplace ≤ 0 then "0"
    else if ndig ≤ dotplace then decDigits ds ++ zeros (dotplace - ndig).toNat
    else decDigits (ds.take dotplace.toNat)
  let fracpart : String :=
    if dotplace ≤ 0 then "." ++ zeros (-dotplace).toNat ++ decDigits ds
    else if ndig ≤ dotplace then ""
    else "." ++ decDigits (ds.drop dotplace.toNat)
  let exppart : String :=
    if leftdigits = dotplace then "" else "E" ++ expSign (leftdigits - dotplace)
  sign ++ intpart ++ fracpart ++ exppart

/-- `SweetpayJSONEncoder.default` (base.py lines 26-35): lower a
non-JSON-native value to a JSON-encodable one.  `datetime` instances become
their ISO-8601 string, `date` instances are formatted with `DATE_FORMAT`
(`"%Y-%m-%d"`), `Decimal` instances become their exact string representation
("String, as we want it money safe").  Every other type falls through to
`json.JSONEncoder.default`, which raises `TypeError`; that failure is
modelled as `Option.none`.  (The `datetime` test precedes the `date` test in
the source because a Python `datetime` is a `date`; the constructors here
are disjoint, so order is immaterial.) -/
def SweetpayJSONEncoder.default : PyVal → Option PyVal
  | .pydatetime y mo d h mi s us => some (.str (datetime_isoformat y mo d h mi s us))
  | .pydate y m d => some (.str (date_strftime y m d))
  | .dec neg ds e => some (.str (decStr neg ds e))
  | _ => Option.none

/-- One hex digit, lower case, as produced by `json.dumps` `\uXXXX` escapes. -/
def hexDigit (n : Nat) : Char :=
  if n < 10 then Char.ofNat (48 + n) else Char.ofNat (87 + n)

/-- A `\uXXXX` escape for a code unit below 2^16. -/
def uEscape (n : Nat) : String :=
  "\\u" ++ String.mk [hexDigit (n / 4096 % 16), hexDigit (n / 256 % 16),
                      hexDigit (n / 16 % 16), hexDigit (n % 16)]

/-- `json.dumps` escaping of a single character with the default
`ensure_ascii=True`: `"` and `\` get a backslash, the common control
characters use their short escapes, every other character outside the
printable ASCII range is `\u`-escaped (astral characters as a surrogate
pair). -/
def escChar (c : Char) : String :=
  if c = '"' then "\\\""
  else if c = '\\' then "\\\\"
  else if c = '\n' then "\\n"
  else if c = '\r' then "\\r"
  else if c = '\t' then "\\t"
  else if c.toNat = 8 then "\\b"
  else if c.toNat = 12 then "\\f"
  else if c.toNat < 32 then uEscape c.toNat
  else if c.toNat < 127 then String.singleton c
  else if c.toNat < 65536 then uEscape c.toNat
  else uEscape (55296 + (c.toNat - 65536) / 1024) ++
       uEscape (56320 + (c.toNat - 65536) % 1024)

/-- A JSON string literal for `s`, as `json.dumps` renders it. -/
def escString (s : String) : String :=
  "\"" ++ String.join (s.data.map escChar) ++ "\""

mutual

/-- `SweetpayJSONEncoder().encode(v)`: the `json` module's serialization with
the default separators (`", "` and `": "`), with the `default` hook above
inlined at the three constructors it handles (the hook returns a string,
which the encoder then serializes as a JSON string literal). -/
def PyVal.enc : PyVal → String
  | .none => "null"
  | .bool b => if b then "true" else "false"
  | .int n => toString n
  | .str s => escString s
  | .pydate y m d => escString (date_strftime y m d)
  | .pydatetime y mo d h mi s us => escString (datetime_isoformat y mo d h mi s us)
  | .dec neg ds e => escString (decStr neg ds e)
  | .list xs => "[" ++ String.intercalate ", " (PyVal.encList xs) ++ "]"
  | .dict kvs => "\x7b" ++ String.intercalate ", " (PyVal.encKVs kvs) ++ "\x7d"

/-- Serialize the elements of a JSON array. -/
def PyVal.encList : List PyVal → List String
  | [] => []
  | x :: xs => PyVal.enc x :: PyVal.encList xs

/-- Serialize the `key: value` members of a JSON object. -/
def PyVal.encKVs : List (String × PyVal) → List String
  | [] => []
  | (k, v) :: kvs => (escString k ++ ": " ++ PyVal.enc v) :: PyVal.encKVs kvs

end

/-! ### The response envelope and the error taxonomy -/

/-- `ResponseClass` (base.py lines 38-63): the uniform envelope returned
from an API call.  `response` is the opaque `requests` response handle
(modelled as an optional number, it is never inspected), `code` the HTTP
status code (`None` for transport failures), `data` the JSON-decoded body
and `status` the application status extracted from the body. -/
structure ResponseClass where
  response : Option Nat
  code : Option Nat
  data : PyVal
  status : Option PyVal

/-- The `OK_STATUS` constant (constants.py). -/
def OK_STATUS : String := "OK"

/-- `ResponseClass.status_ok`: `self.status == OK_STATUS`.  A Python `==`
between a non-string value and the string `"OK"` is `False`. -/
def ResponseClass.status_ok (r : ResponseClass) : Bool :=
  match r.status with
  | some (.str s) => decide (s = OK_STATUS)
  | _ => false

/-- Which exception class of the `SweetpayError` hierarchy (errors.py) was
raised. -/
inductive ErrKind where
  | sweetpay
  | failureStatus
  | proxy
  | badData
  | invalidParameter
  | internalServer
  | unauthorized
  | notFound
  | methodNotAllowed
  | underMaintenance
  | timeout
  | request
  deriving DecidableEq

/-- A raised `SweetpayError` (errors.py): the exception class together with
the keyword arguments every raise site passes (`code`, `status`, `data`,
`response`).  The human-readable message is not modelled. -/
structure SweetpayErr where
  kind : ErrKind
  code : Option Nat
  status : Option PyVal
  data : PyVal
  response : Option Nat

/-- `BaseResource.post_request` (base.py lines 256-273): extract the
application status from the decoded body.  A bare string body becomes the
status itself with the body reset to `None`; otherwise `data["status"]` is
tried, with `KeyError`/`TypeError` (missing key, non-mapping body) degrading
to no status. -/
def post_request (resp : ResponseClass) : ResponseClass :=
  match resp.data with
  | .str s => { resp with status := some (.str s), data := PyVal.none }
  | .dict kvs => { resp with status := lookupKey kvs "status" }
  | _ => { resp with status := Option.none }

/-- The status fallback inside `check_for_errors` (base.py lines 325-329):
when no status was extracted and the body has a `get` attribute (is
mapping-like), `data.get("error", None)` replaces the status used on the
raised exception. -/
def errorFallbackStatus (status : Option PyVal) (data : PyVal) : Option PyVal :=
  match status, data with
  | Option.none, .dict kvs => lookupKey kvs "error"
  | s, _ => s

/-- `BaseResource.check_for_errors` (base.py lines 279-370): the error
mapper.  HTTP 200 with an OK status returns the envelope; HTTP 200 otherwise
raises `FailureStatusError` with the extracted status; every other code
raises the exception class of the `code == ...` chain, after the
`data.get("error")` status fallback, with the generic `SweetpayError` as the
final `else`. -/
def check_for_errors (respcls : ResponseClass) : Except SweetpayErr ResponseClass :=
  let code := respcls.code
  if code = some 200 then
    if respcls.status_ok then
      Except.ok respcls
    else
      Except.error ⟨.failureStatus, code, respcls.status, respcls.data, respcls.response⟩
  else
    let status := errorFallbackStatus respcls.status respcls.data
    let raise : ErrKind → Except SweetpayErr ResponseClass := fun k =>
      Except.error ⟨k, code, status, respcls.data, respcls.response⟩
    if code = some 400 then raise .badData
    else if code = some 401 then raise .unauthorized
    else if code = some 404 then raise .notFound
    else if code = some 405 then raise .methodNotAllowed
    else if code = some 422 then raise .invalidParameter
    else if code = some 500 then raise .internalServer
    else if code = some 502 then raise .proxy
    else if code = some 503 then raise .underMaintenance
    else raise .sweetpay

/-- The HTTP-status → exception-class decision table of the specification
(spec §4.3), used to state what `check_for_errors` must raise for non-200
envelopes. -/
def tableKind (c : Nat) : ErrKind :=
  if c = 400 then .badData
  else if c = 401 then .unauthorized
  else if c = 404 then .notFound
  else if c = 405 then .methodNotAllowed
  else if c = 422 then .invalidParameter
  else if c = 500 then .internalServer
  else if c = 502 then .proxy
  else if c = 503 then .underMaintenance
  else .sweetpay

/-! ### Field paths and the validator registry -/

/-- One step of a validator field path: a mapping key (string) or a sequence
index (integer), as registered through `BaseResource.validates`. -/
abbrev Key := String ⊕ Nat

/-- Modelled from the spec: `getfromdict` is imported by base.py from
`sweetpay/utils.py`, but the `utils.py` present in the repository is an
older revision without it.  Per spec §4.2 the path is read step by step
through nested mappings/sequences; an empty path resolves to the whole body;
a missing key, a wrong container type or an out-of-range index means the
path does not resolve (`Option.none`), which `validate_data` treats as the
`KeyError`/`TypeError` it silently skips. -/
def getfromdict : PyVal → List Key → Option PyVal
  | v, [] => some v
  | .dict kvs, Sum.inl k :: rest =>
    match lookupKey kvs k with
    | some v => getfromdict v rest
    | Option.none => Option.none
  | .list xs, Sum.inr i :: rest =>
    match xs.get? i with
    | some v => getfromdict v rest
    | Option.none => Option.none
  | _, _ :: _ => Option.none

/-- Rewrite the value stored under `key` (first match) with `f`, leaving
every other pair of the dict untouched. -/
def updateKey (kvs : List (String × PyVal)) (key : String) (f : PyVal → PyVal) :
    List (String × PyVal) :=
  match kvs with
  | [] => []
  | (k, v) :: rest =>
    if k = key then (k, f v) :: rest else (k, v) :: updateKey rest key f

/-- Rewrite the element at index `i` with `f`, leaving every other element
of the list untouched. -/
def updateIdx (xs : List PyVal) (i : Nat) (f : PyVal → PyVal) : List PyVal :=
  match xs, i with
  | [], _ => []
  | x :: rest, 0 => f x :: rest
  | x :: rest, n + 1 => x :: updateIdx rest n f

/-- Modelled from the spec: `setindict` is imported by base.py from the
missing newer `utils.py` revision.  Per spec §4.2 it replaces the value at a
(resolving, non-empty) path in place; on a non-resolving path the structure
is returned unchanged (`validate_data` only calls it after `getfromdict`
succeeded). -/
def setindict : PyVal → List Key → PyVal → PyVal
  | _, [], w => w
  | .dict kvs, Sum.inl k :: rest, w =>
    .dict (updateKey kvs k (fun v => setindict v rest w))
  | .list xs, Sum.inr i :: rest, w =>
    .list (updateIdx xs i (fun v => setindict v rest w))
  | v, _ :: _, _ => v

/-- A registered validator: the decorated function together with the
`_dictpath` attribute `BaseResource.validates` stores on it. -/
structure VEntry where
  dictpath : List Key
  func : PyVal → PyVal

/-- The body of the `for processor in validators` loop of
`BaseResource.validate_data` (base.py lines 384-401): read the value at the
entry's path; on `KeyError`/`TypeError` skip the entry ("we screw it and
continue"); otherwise apply the validator, the result replacing the whole
body when the path is empty and the value at the path otherwise. -/
def applyValidator (data : PyVal) (entry : VEntry) : PyVal :=
  match getfromdict data entry.dictpath with
  | Option.none => data
  | some value =>
    let validated := entry.func value
    if entry.dictpath.isEmpty then validated
    else setindict data entry.dictpath validated

/-- `BaseResource.validate_data` (base.py lines 372-402) applied to an
already-assembled list of validators. -/
def validate_data (validators : List VEntry) (data : PyVal) : PyVal :=
  validators.foldl applyValidator data

/-- The resource classes that key the `_validators` defaultdict:
`BaseResource` itself (the `validates(path)` one-argument registration form,
applying to all resources) and its concrete subclasses. -/
inductive RKind where
  | base
  | subscription
  | creditcheck
  | checkoutSession
  deriving DecidableEq

/-- The `BaseResource._validators` defaultdict: each resource class maps to
its registered validator list (empty when never registered). -/
abbrev Registry := RKind → List VEntry

/-- The freshly initialized `_validators = defaultdict(list)`. -/
def Registry.empty : Registry := fun _ => []

/-- `BaseResource.validates` (base.py lines 404-419) as a registry update:
`cls._validators[cls].append(func)` appends the entry at the end of the
class's list. -/
def validates (r : Registry) (k : RKind) (entry : VEntry) : Registry :=
  fun k2 => if k2 = k then r k ++ [entry] else r k2

/-- A registry built by a sequence of `validates` registrations, applied in
order to the empty registry. -/
def registryOf (regs : List (RKind × VEntry)) : Registry :=
  regs.foldl (fun r p => validates r p.1 p.2) Registry.empty

/-- The `chain(cls._validators[cls], cls._validators[BaseResource])`
iterator of `BaseResource.validate_data` (base.py line 383): the validators
registered for the concrete class first, then those registered for all
resources. -/
def classValidators (r : Registry) (k : RKind) : List VEntry :=
  r k ++ r RKind.base

/-- `BaseResource.validate_data` as called on a concrete resource class:
the chained per-class and all-resources validators applied in order. -/
def class_validate_data (r : Registry) (k : RKind) (data : PyVal) : PyVal :=
  validate_data (classValidators r k) data

/-- Paths `p` and `q` address independent locations: at some position where
both are still defined they take different branches, so neither is an
initial segment of the other. -/
def pathsDiverge : List Key → List Key → Bool
  | [], _ => false
  | _ :: _, [] => false
  | a :: p, b :: q => if a = b then pathsDiverge p q else true

/-! ### The resource facade: mock state and the request pipeline -/

/-- The mutable state of a `BaseResource` instance that the pipeline
consults: the mock fields set by `mock_resource` and the `use_validators`
construction flag. -/
structure ResState where
  mockdata : Option ResponseClass
  mockexc : Option SweetpayErr
  use_validators : Bool

/-- `BaseResource.is_mocked` (base.py lines 421-424):
`self.mockexc is not None or self.mockdata is not None`. -/
def ResState.is_mocked (st : ResState) : Bool :=
  st.mockexc.isSome || st.mockdata.isSome

/-- The mock-or-real dispatch at the top of `BaseResource.make_request`
(base.py lines 233-248).  When mocked, a configured `mockexc` is raised,
otherwise the canned `ResponseClass(**self.mockdata)` is returned; when not
mocked (both fields `None`, matching `is_mocked`), the connector outcome
`real` is used and `post_request` extracts the status from it. -/
def resource_response (st : ResState) (real : Except SweetpayErr ResponseClass) :
    Except SweetpayErr ResponseClass :=
  match st.mockexc, st.mockdata with
  | some e, _ => Except.error e
  | Option.none, some md => Except.ok md
  | Option.none, Option.none =>
    match real with
    | Except.error e => Except.error e
    | Except.ok r => Except.ok (post_request r)

/-- `BaseResource.make_request` (base.py lines 223-254): obtain the envelope
(mocked or real), run the validators over its data when the data is truthy
and `use_validators` is set, then hand the envelope to the error mapper.
The connector call itself is external; its outcome is the `real`
parameter. -/
def make_request (validators : List VEntry) (st : ResState)
    (real : Except SweetpayErr ResponseClass) : Except SweetpayErr ResponseClass :=
  match resource_response st real with
  | Except.error e => Except.error e
  | Except.ok respcls =>
    let respcls2 :=
      if respcls.data.truthy && st.use_validators then
        { respcls with data := validate_data validators respcls.data }
      else respcls
    check_for_errors respcls2

/-- `BaseResource.mock_resource` (base.py lines 426-439), a
`@contextmanager` generator: entering the scope stores the canned envelope
and optional exception; the two reset assignments stand *after* the bare
`yield`.  Per `contextlib` semantics, when the scope body raises, the
exception is thrown into the generator at the `yield` point and — there
being no `try`/`finally` around it — the statements after `yield` never run,
so the state is returned un-reset; on normal completion the generator
resumes and both fields are reset to `None`. -/
def mock_resource {α : Type} (st : ResState) (raises : Option SweetpayErr)
    (md : ResponseClass) (body : ResState → Except SweetpayErr α) :
    Except SweetpayErr α × ResState :=
  let entered : ResState := { st with mockexc := raises, mockdata := some md }
  match body entered with
  | Except.ok a =>
    (Except.ok a, { entered with mockdata := Option.none, mockexc := Option.none })
  | Except.error e => (Except.error e, entered)

/-! ### The connector method check (`Connector.encode_data`, connector.py) -/

/-- What `encode_data` hands to the transport as the request body: nothing
(GET), the literal empty dict `{}` (POST without parameters), or the
JSON-encoded parameter string. -/
inductive EncodedBody where
  | nobody
  | emptyDict
  | jsonBody (s : String)
  deriving DecidableEq

/-- `Connector.encode_data` (connector.py lines 78-97): `GET` sends no body;
`POST` JSON-encodes truthy params with `SweetpayJSONEncoder` and uses `{}`
otherwise; any other method raises `ValueError` (modelled as the `Unit`
error — a plain built-in exception, not part of the `SweetpayError`
taxonomy). -/
def encode_data (method : String) (params : List (String × PyVal)) :
    Except Unit EncodedBody :=
  if method = "GET" then Except.ok .nobody
  else if method = "POST" then
    Except.ok (if !params.isEmpty then .jsonBody (PyVal.enc (.dict params)) else .emptyDict)
  else Except.error ()

/-- Python `str.upper()` (the methods passed here are ASCII). -/
def pyUpper (s : String) : String := String.mk (s.data.map Char.toUpper)

/-- The method dispatch of `SweetpayConnector.make_request` (base.py lines
113-137): the method is first upper-cased (`method = method.upper()`), then
`GET` sends no body, `POST` encodes truthy params with
`SweetpayJSONEncoder().encode` and uses `{}` otherwise, and anything else
raises `ValueError` before any request is sent. -/
def sweetpay_connector_reqdata (method : String) (params : List (String × PyVal)) :
    Except Unit EncodedBody :=
  let m := pyUpper method
  if m = "GET" then Except.ok .nobody
  else if m = "POST" then
    Except.ok (if !params.isEmpty then .jsonBody (PyVal.enc (.dict params)) else .emptyDict)
  else Except.error ()

/-- The outcome of one connector send: a `ValueError` contract violation, a
transport-tier typed failure, or a delivered envelope. -/
inductive SendOutcome where
  | valueError
  | failed (e : SweetpayErr)
  | sent (r : ResponseClass)

/-- Modelled from the spec: the request operation of `restbase.BaseConnector`
(the `restbase` package connector.py builds on is not part of this
repository).  Per spec §4.1, `send` validates/encodes the parameters with
`encode_data` first — a non-`GET`/`POST` method raises `ValueError`
immediately, before any request is sent — and only then performs the
transport call, here abstracted as the `transport` function. -/
def connector_send (method : String) (params : List (String × PyVal))
    (transport : EncodedBody → Except SweetpayErr ResponseClass) : SendOutcome :=
  match encode_data method params with
  | Except.error _ => SendOutcome.valueError
  | Except.ok body =>
    match transport body with
    | Except.error e => SendOutcome.failed e
    | Except.ok r => SendOutcome.sent r

/-! ### Lemmas: reading after writing along field paths -/

theorem lookupKey_updateKey_self (kvs : List (String × PyVal)) (key : String)
    (f : PyVal → PyVal) :
    lookupKey (updateKey kvs key f) key = (lookupKey kvs key).map f := by
  induction kvs with
  | nil => rfl
  | cons kv rest ih =>
    obtain ⟨k, v⟩ := kv
    by_cases h : k = key
    · simp [updateKey, lookupKey, h]
    · simp [updateKey, lookupKey, h, ih]

theorem lookupKey_updateKey_ne (kvs : List (String × PyVal)) (key k2 : String)
    (f : PyVal → PyVal) (h : k2 ≠ key) :
    lookupKey (updateKey kvs key f) k2 = lookupKey kvs k2 := by
  induction kvs with
  | nil => rfl
  | cons kv rest ih =>
    obtain ⟨k, v⟩ := kv
    by_cases hk : k = key
    · subst hk
      simp [updateKey, lookupKey, Ne.symm h]
    · simp only [updateKey, if_neg hk]
      by_cases hk2 : k = k2
      · simp [lookupKey, hk2]
      · simp [lookupKey, hk2, ih]

theorem get?_updateIdx_self (xs : List PyVal) (i : Nat) (f : PyVal → PyVal) :
    (updateIdx xs i f).get? i = (xs.get? i).map f := by
  induction xs generalizing i with
  | nil => cases i <;> rfl
  | cons x rest ih => cases i with
    | zero => rfl
    | succ n => simpa [updateIdx] using ih n

theorem get?_updateIdx_ne (xs : List PyVal) (i j : Nat) (f : PyVal → PyVal)
    (h : j ≠ i) :
    (updateIdx xs i f).get? j = xs.get? j := by
  induction xs generalizing i j with
  | nil => cases i <;> rfl
  | cons x rest ih =>
    cases i with
    | zero =>
      cases j with
      | zero => exact absurd rfl h
      | succ m => rfl
    | succ n =>
      cases j with
      | zero => rfl
      | succ m => simpa [updateIdx] using ih n m (fun hh => h (by simp [hh]))

theorem getfromdict_nil (v : PyVal) : getfromdict v [] = some v := by
  cases v <;> rfl

theorem setindict_nil (v w : PyVal) : setindict v [] w = w := by
  cases v <;> rfl

theorem getfromdict_setindict_self (p : List Key) (v w u : PyVal)
    (h : getfromdict v p = some u) :
    getfromdict (setindict v p w) p = some w := by
  induction p generalizing v with
  | nil => rw [setindict_nil, getfromdict_nil]
  | cons a rest ih =>
    cases a with
    | inl k =>
      cases v with
      | dict kvs =>
        simp only [getfromdict] at h
        simp only [setindict, getfromdict, lookupKey_updateKey_self]
        cases hl : lookupKey kvs k with
        | none => rw [hl] at h; exact absurd h (by simp)
        | some v2 =>
          rw [hl] at h
          simpa using ih v2 h
      | none => exact absurd h (by simp [getfromdict])
      | bool b => exact absurd h (by simp [getfromdict])
      | int n => exact absurd h (by simp [getfromdict])
      | str s => exact absurd h (by simp [getfromdict])
      | pydate y m d => exact absurd h (by simp [getfromdict])
      | pydatetime y mo d hh mi s us => exact absurd h (by simp [getfromdict])
      | dec neg ds e => exact absurd h (by simp [getfromdict])
      | list xs => exact absurd h (by simp [getfromdict])
    | inr i =>
      cases v with
      | list xs =>
        simp only [getfromdict] at h
        simp only [setindict, getfromdict, get?_updateIdx_self]
        cases hl : xs.get? i with
        | none => rw [hl] at h; exact absurd h (by simp)
        | some v2 =>
          rw [hl] at h
          simpa using ih v2 h
      | none => exact absurd h (by simp [getfromdict])
      | bool b => exact absurd h (by simp [getfromdict])
      | int n => exact absurd h (by simp [getfromdict])
      | str s => exact absurd h (by simp [getfromdict])
      | pydate y m d => exact absurd h (by simp [getfromdict])
      | pydatetime y mo d hh mi s us => exact absurd h (by simp [getfromdict])
      | dec neg ds e => exact absurd h (by simp [getfromdict])
      | dict kvs => exact absurd h (by simp [getfromdict])

theorem getfromdict_setindict_diverge (p q : List Key) (v w : PyVal)
    (h : pathsDiverge p q = true) :
    getfromdict (setindict v p w) q = getfromdict v q := by
  induction p generalizing q v with
  | nil => simp [pathsDiverge] at h
  | cons a p2 ih =>
    cases q with
    | nil => simp [pathsDiverge] at h
    | cons b q2 =>
      by_cases hab : a = b
      · subst hab
        have h2 : pathsDiverge p2 q2 = true := by
          simpa [pathsDiverge] using h
        cases a with
        | inl k =>
          cases v <;> try rfl
          rename_i kvs
          simp only [setindict, getfromdict, lookupKey_updateKey_self]
          cases hl : lookupKey kvs k with
          | none => simp
          | some v2 => simp [ih q2 v2 h2]
        | inr i =>
          cases v <;> try rfl
          rename_i xs
          simp only [setindict, getfromdict, get?_updateIdx_self]
          cases hl : xs.get? i with
          | none => simp
          | some v2 => simp [ih q2 v2 h2]
      · cases a with
        | inl k =>
          cases b with
          | inl k2 =>
            have hk : k2 ≠ k := fun hh => hab (by rw [hh])
            cases v <;> try rfl
            rename_i kvs
            simp only [setindict, getfromdict,
              lookupKey_updateKey_ne kvs k k2 _ hk]
          | inr j =>
            cases v <;> rfl
        | inr i =>
          cases b with
          | inl k2 =>
            cases v <;> rfl
          | inr j =>
            have hj : j ≠ i := fun hh => hab (by rw [hh])
            cases v <;> try rfl
            rename_i xs
            simp only [setindict, getfromdict,
              get?_updateIdx_ne xs i j _ hj]

/-! ### Lemmas: the registry stores validators in registration order -/

theorem registryOf_foldl (regs : List (RKind × VEntry)) (r : Registry) (k : RKind) :
    (regs.foldl (fun r p => validates r p.1 p.2) r) k
      = r k ++ (regs.filter (fun p => decide (p.1 = k))).map Prod.snd := by
  induction regs generalizing r with
  | nil => simp
  | cons a rest ih =>
    obtain ⟨ka, ea⟩ := a
    simp only [List.foldl_cons, List.filter_cons]
    rw [ih]
    by_cases hk : ka = k
    · subst hk
      simp [validates]
    · have hk2 : ¬ k = ka := fun hh => hk hh.symm
      simp [validates, hk, hk2]

theorem registryOf_apply (regs : List (RKind × VEntry)) (k : RKind) :
    registryOf regs k = (regs.filter (fun p => decide (p.1 = k))).map Prod.snd := by
  simpa [Registry.empty] using registryOf_foldl regs Registry.empty k

/-! ### Lemmas: the error mapper on non-200 envelopes -/

theorem check_for_errors_non200 (c : Nat) (st : Option PyVal) (data : PyVal)
    (resp : Option Nat) (h : c ≠ 200) :
    check_for_errors ⟨resp, some c, data, st⟩
      = Except.error ⟨tableKind c, some c, errorFallbackStatus st data, data, resp⟩ := by
  simp only [check_for_errors, tableKind, Option.some.injEq]
  rw [if_neg h]
  split_ifs <;> rfl

/-! ### The claims -/

/-- C1: for every envelope whose HTTP status code is in
{400, 401, 404, 405, 422, 500, 502, 503}, `check_for_errors` raises the
corresponding typed error — BadData, Unauthorized, NotFound,
MethodNotAllowed, InvalidParameter, InternalServer, Proxy, UnderMaintenance
respectively, as recorded by the spec table `tableKind` — with the raised
error's `code` field equal to the input HTTP status; for every envelope with
any other non-200 HTTP status (e.g. 418) it raises the generic
`SweetpayError` (`tableKind`'s final `else`). -/
theorem claim_C1 (c : Nat) (st : Option PyVal) (data : PyVal) (resp : Option Nat)
    (h : c ≠ 200) :
    check_for_errors ⟨resp, some c, data, st⟩
      = Except.error ⟨tableKind c, some c, errorFallbackStatus st data, data, resp⟩ :=
  check_for_errors_non200 c st data resp h

/-- Witness for C1: a 400 envelope raises `BadDataError` with `code = 400`,
and a 418 envelope raises the generic `SweetpayError` with `code = 418`. -/
theorem claim_C1_witness :
    check_for_errors ⟨some 7, some 400, .dict [("a", .int 1)], Option.none⟩
      = Except.error ⟨.badData, some 400, Option.none, .dict [("a", .int 1)], some 7⟩
    ∧ check_for_errors ⟨some 7, some 418, .none, some (.str "FAIL")⟩
      = Except.error ⟨.sweetpay, some 418, some (.str "FAIL"), .none, some 7⟩ :=
  ⟨claim_C1 400 Option.none (.dict [("a", .int 1)]) (some 7) (by decide),
   claim_C1 418 (some (.str "FAIL")) .none (some 7) (by decide)⟩

/-- C2: for every envelope with HTTP status 200, after status extraction
(`post_request`): when the extracted application status equals `"OK"` the
check returns the envelope — its data unchanged (validators having already
run before the check); when the status is any other value, or none could be
derived at all (body `None`, a list, or any non-mapping non-string), the
check raises `FailureStatusError` whose `status` field equals that extracted
application status (`None` when none was derivable). -/
theorem claim_C2 (data : PyVal) (resp : Option Nat) :
    check_for_errors (post_request ⟨resp, some 200, data, Option.none⟩)
      = (if (post_request ⟨resp, some 200, data, Option.none⟩).status_ok then
           Except.ok (post_request ⟨resp, some 200, data, Option.none⟩)
         else
           Except.error ⟨.failureStatus, some 200,
             (post_request ⟨resp, some 200, data, Option.none⟩).status,
             (post_request ⟨resp, some 200, data, Option.none⟩).data, resp⟩) := by
  cases data <;> rfl

/-- The `NotFoundError` used by the repository's own mock test
(tests/test_mock.py, `test_all_operations_with_exception`). -/
def notFoundExc : SweetpayErr := ⟨.notFound, Option.none, Option.none, .none, Option.none⟩

/-- A canned envelope with every `mock_resource` keyword left at its `None`
default. -/
def emptyEnvelope : ResponseClass := ⟨Option.none, Option.none, .none, Option.none⟩

/-- The canned OK envelope of spec §8 property 6:
`{code: 200, status: "OK", data: {"k": "v"}, response: 123}`. -/
def okEnvelope : ResponseClass :=
  ⟨some 123, some 200, .dict [("k", .str "v")], some (.str "OK")⟩

/-- C3 (the code violates the claim): `mock_resource`'s generator has no
`try`/`finally`, so the reset assignments after `yield` only run on normal
completion.  Evaluating the embedded scope: when the body raises (here the
canned `NotFoundError` configured via `raises`, exactly the repository's own
mock test scenario), the exception propagates and the facade's mock state is
NOT reset — `is_mocked` stays `true` and `mockexc` stays set — contradicting
the claimed guaranteed reset on exception; on normal completion the state is
fully reset as claimed. -/
theorem claim_C3 :
    (mock_resource ⟨Option.none, Option.none, true⟩ (some notFoundExc) emptyEnvelope
        (fun st => make_request [] st (Except.ok emptyEnvelope))).1
      = Except.error notFoundExc
    ∧ (mock_resource ⟨Option.none, Option.none, true⟩ (some notFoundExc) emptyEnvelope
        (fun st => make_request [] st (Except.ok emptyEnvelope))).2.is_mocked = true
    ∧ (mock_resource ⟨Option.none, Option.none, true⟩ (some notFoundExc) emptyEnvelope
        (fun st => make_request [] st (Except.ok emptyEnvelope))).2.mockexc
      = some notFoundExc
    ∧ (mock_resource ⟨Option.none, Option.none, true⟩ Option.none okEnvelope
        (fun st => make_request [] st (Except.ok emptyEnvelope))).2.is_mocked = false :=
  ⟨rfl, rfl, rfl, rfl⟩

/-- C4: for a registered validator whose path resolves in the body,
`validate_data` replaces exactly the value at that path with the transform's
result and leaves the value at every independent (diverging) path unchanged;
for an empty registered path the entire body is replaced by the transform's
return value. -/
theorem claim_C4 (p : List Key) (f : PyVal → PyVal) (body v : PyVal)
    (h : getfromdict body p = some v) :
    (p = [] → validate_data [⟨p, f⟩] body = f v)
    ∧ (p ≠ [] → getfromdict (validate_data [⟨p, f⟩] body) p = some (f v))
    ∧ ∀ q, pathsDiverge p q = true →
        getfromdict (validate_data [⟨p, f⟩] body) q = getfromdict body q := by
  have hv : validate_data [⟨p, f⟩] body
      = if p.isEmpty then f v else setindict body p (f v) := by
    simp [validate_data, applyValidator, h]
  refine ⟨?_, ?_, ?_⟩
  · intro hp
    subst hp
    simpa using hv
  · intro hp
    rw [hv, if_neg (by simpa using hp)]
    exact getfromdict_setindict_self p body (f v) v h
  · intro q hq
    have hp : ¬ p.isEmpty := by
      cases p with
      | nil => simp [pathsDiverge] at hq
      | cons a p2 => simp
    rw [hv, if_neg hp]
    exact getfromdict_setindict_diverge p q body (f v) hq

/-- Witness for C4: the validator of tests/test_validates.py `test_validates`
(path `["test", "path"]`) rewrites exactly that field of
`{"test": {"path": "the value"}, "other": 5}` and leaves the sibling
`"other"` field unchanged. -/
theorem claim_C4_witness :
    getfromdict
        (validate_data [⟨[Sum.inl "test", Sum.inl "path"], fun _ => .str "changed value"⟩]
          (.dict [("test", .dict [("path", .str "the value")]), ("other", .int 5)]))
        [Sum.inl "test", Sum.inl "path"]
      = some (.str "changed value")
    ∧ getfromdict
        (validate_data [⟨[Sum.inl "test", Sum.inl "path"], fun _ => .str "changed value"⟩]
          (.dict [("test", .dict [("path", .str "the value")]), ("other", .int 5)]))
        [Sum.inl "other"]
      = getfromdict
          (.dict [("test", .dict [("path", .str "the value")]), ("other", .int 5)])
          [Sum.inl "other"] := by
  have h := claim_C4 [Sum.inl "test", Sum.inl "path"] (fun _ => .str "changed value")
    (.dict [("test", .dict [("path", .str "the value")]), ("other", .int 5)])
    (.str "the value") rfl
  exact ⟨h.2.1 (by simp), h.2.2 [Sum.inl "other"] rfl⟩

/-- C5: a validator entry whose path does not resolve in the body — missing
key, wrong container type, or sequence index out of range, all of which make
`getfromdict` fail — is silently skipped by `validate_data`: the body passes
to the remaining entries unchanged and nothing is raised. -/
theorem claim_C5 (entry : VEntry) (rest : List VEntry) (data : PyVal)
    (h : getfromdict data entry.dictpath = Option.none) :
    validate_data (entry :: rest) data = validate_data rest data := by
  simp [validate_data, applyValidator, h]

/-- Witness for C5: the scenario of tests/test_validates.py
`test_validates_with_path_not_found` — a validator registered for the
missing key `"tough"` leaves `{"other_path": "the value"}` unchanged. -/
theorem claim_C5_witness :
    validate_data [⟨[Sum.inl "tough"], fun _ => .str "changed value"⟩]
        (.dict [("other_path", .str "the value")])
      = .dict [("other_path", .str "the value")] :=
  claim_C5 ⟨[Sum.inl "tough"], fun _ => .str "changed value"⟩ []
    (.dict [("other_path", .str "the value")]) rfl

/-- C6: POST parameters are JSON-encoded with `SweetpayJSONEncoder`, whose
`default` hook turns a `datetime` into its ISO-8601 string, a calendar date
into a `YYYY-MM-DD` string and a `Decimal` into its exact string
representation; in particular `SweetpayConnector.make_request` with
`method="POST"` and `parameters={"amount": Decimal("10.50"),
"currency": "SEK"}` serializes the amount as the JSON *string* `"10.50"`,
never as a binary-float literal such as `10.5`. -/
theorem claim_C6 :
    (∀ y mo d h mi s us, SweetpayJSONEncoder.default (.pydatetime y mo d h mi s us)
        = some (.str (datetime_isoformat y mo d h mi s us)))
    ∧ (∀ y m d, SweetpayJSONEncoder.default (.pydate y m d)
        = some (.str (date_strftime y m d)))
    ∧ (∀ neg ds e, SweetpayJSONEncoder.default (.dec neg ds e)
        = some (.str (decStr neg ds e)))
    ∧ sweetpay_connector_reqdata "POST"
        [("amount", .dec false [1, 0, 5, 0] (-2)), ("currency", .str "SEK")]
      = Except.ok (.jsonBody "\x7b\"amount\": \"10.50\", \"currency\": \"SEK\"\x7d") :=
  ⟨fun _ _ _ _ _ _ _ => rfl, fun _ _ _ => rfl, fun _ _ _ => rfl, rfl⟩

/-- C7: for every resource kind and body, the validators are applied in a
fixed order: the entries registered for that resource kind first, in
registration order, followed by the entries registered for all resources
(the `BaseResource` key), in registration order. -/
theorem claim_C7 (regs : List (RKind × VEntry)) (k : RKind) (data : PyVal) :
    classValidators (registryOf regs) k
      = (regs.filter (fun p => decide (p.1 = k))).map Prod.snd
        ++ (regs.filter (fun p => decide (p.1 = RKind.base))).map Prod.snd
    ∧ class_validate_data (registryOf regs) k data
      = validate_data
          ((regs.filter (fun p => decide (p.1 = k))).map Prod.snd
            ++ (regs.filter (fun p => decide (p.1 = RKind.base))).map Prod.snd)
          data := by
  constructor
  · simp [classValidators, registryOf_apply]
  · simp [class_validate_data, classValidators, registryOf_apply]

/-- C8: a method other than exactly `"GET"` or `"POST"` makes
`Connector.encode_data` — and with it the send pipeline — raise a plain
`ValueError` (not a typed `SweetpayError`) before any transport call: the
outcome is `valueError` for every conceivable transport, so no request is
sent; for `"GET"` and `"POST"` this check never fires. -/
theorem claim_C8 (method : String) (params : List (String × PyVal)) :
    (method ≠ "GET" → method ≠ "POST" →
      encode_data method params = Except.error ()
      ∧ ∀ transport, connector_send method params transport = SendOutcome.valueError)
    ∧ ((method = "GET" ∨ method = "POST") →
      ∀ transport, connector_send method params transport ≠ SendOutcome.valueError) := by
  constructor
  · intro h1 h2
    have he : encode_data method params = Except.error () := by
      simp [encode_data, h1, h2]
    exact ⟨he, fun transport => by simp [connector_send, he]⟩
  · intro h transport
    have he : ∃ b, encode_data method params = Except.ok b := by
      rcases h with h | h <;> subst h
      · exact ⟨.nobody, rfl⟩
      · exact ⟨_, rfl⟩
    obtain ⟨b, hb⟩ := he
    simp only [connector_send, hb]
    cases transport b <;> simp

/-- Witness for C8: `"PUT"` yields the `ValueError` outcome, `"GET"` does
not. -/
theorem claim_C8_witness :
    connector_send "PUT" []
        (fun _ => Except.ok ⟨Option.none, Option.none, .none, Option.none⟩)
      = SendOutcome.valueError
    ∧ connector_send "GET" []
        (fun _ => Except.ok ⟨Option.none, Option.none, .none, Option.none⟩)
      ≠ SendOutcome.valueError :=
  ⟨((claim_C8 "PUT" []).1 (by decide) (by decide)).2 _,
   (claim_C8 "GET" []).2 (Or.inl rfl) _⟩

/-- C9 counterexample: the claim quantifies over *every* envelope with no
extracted status and a mapping-like body, but on an HTTP-200 envelope with
body `{"error": "X"}` and no status, `check_for_errors` raises
`FailureStatusError` with `status = None`: the body's `"error"` value `"X"`
is not consulted (the fallback sits after the 200 branch), so the raised
status is not `"X"` as the claim requires. -/
theorem claim_C9_counterexample :
    check_for_errors ⟨Option.none, some 200, .dict [("error", .str "X")], Option.none⟩
      = Except.error
          ⟨.failureStatus, some 200, Option.none, .dict [("error", .str "X")], Option.none⟩
    ∧ lookupKey [("error", .str "X")] "error" = some (.str "X")
    ∧ (Option.none : Option PyVal) ≠ some (.str "X") :=
  ⟨rfl, rfl, fun hh => Option.noConfusion hh⟩

/-- C9 as amended: for every envelope with *non-200* HTTP status for which no
application status was extracted and whose body is mapping-like,
`check_for_errors` looks up the body's `"error"` key and uses its value
(`None` when absent) as the `status` of the exception it raises. -/
theorem claim_C9 (c : Nat) (kvs : List (String × PyVal)) (resp : Option Nat)
    (h : c ≠ 200) :
    ∃ e, check_for_errors ⟨resp, some c, .dict kvs, Option.none⟩ = Except.error e
      ∧ e.status = lookupKey kvs "error" :=
  ⟨_, check_for_errors_non200 c Option.none (.dict kvs) resp h, rfl⟩

/-- Witness for C9 (amended): a 404 envelope with body
`{"error": "NOT_FOUND"}` raises with `status = "NOT_FOUND"`. -/
theorem claim_C9_witness :
    ∃ e, check_for_errors
          ⟨Option.none, some 404, .dict [("error", .str "NOT_FOUND")], Option.none⟩
        = Except.error e
      ∧ e.status = lookupKey [("error", .str "NOT_FOUND")] "error" :=
  claim_C9 404 [("error", .str "NOT_FOUND")] Option.none (by decide)

/-- C10: when the envelope's decoded body is falsy (`None`, an empty
mapping, an empty list, or an empty string all make `truthy` false) or the
facade was constructed with `use_validators` disabled, no registered
validator is applied — the pipeline's result is `check_for_errors` of the
untouched envelope, for *any* registered validator list (including
empty-path whole-body validators), so the body reaches error mapping
unmodified. -/
theorem claim_C10 (validators : List VEntry) (st : ResState)
    (real : Except SweetpayErr ResponseClass) (respcls : ResponseClass)
    (hok : resource_response st real = Except.ok respcls)
    (h : respcls.data.truthy = false ∨ st.use_validators = false) :
    make_request validators st real = check_for_errors respcls := by
  simp only [make_request, hok]
  rcases h with h | h <;> simp [h]

/-- Witness for C10: a mocked empty-list body with a registered whole-body
validator (which would replace the body entirely were it applied) reaches
the error mapper unmodified. -/
theorem claim_C10_witness :
    make_request [⟨[], fun _ => .str "REPLACED"⟩]
        ⟨some ⟨some 123, some 200, .list [], some (.str "OK")⟩, Option.none, true⟩
        (Except.ok ⟨Option.none, Option.none, .none, Option.none⟩)
      = check_for_errors ⟨some 123, some 200, .list [], some (.str "OK")⟩ :=
  claim_C10 [⟨[], fun _ => .str "REPLACED"⟩]
    ⟨some ⟨some 123, some 200, .list [], some (.str "OK")⟩, Option.none, true⟩
    (Except.ok ⟨Option.none, Option.none, .none, Option.none⟩)
    ⟨some 123, some 200, .list [], some (.str "OK")⟩ rfl (Or.inl rfl)

end Sweetpay
